import Mathlib

/-!
Shallow embedding of `src/server.js`: an Express + Mongoose backend with
two singleton counters (visitor, question-request), chat-transcript CRUD
with a per-record question counter, and a carousel image gallery with two
upload paths (multipart and base64).

The MongoDB collections are modelled as Lean lists; each route handler is
a pure state-transition function on that model.  Transient database
failures (which drive the retry loops of the counter routes) are modelled
by an oracle `fail : Nat -> Option String` giving, for each attempt index,
the error message it fails with (or `none` for success).
-/

namespace Server

/-! ### Counter model (VisitorCounter / QuestionRequestCounter collections)

Both counter schemas are identical (`count` defaulting to 0, `lastUpdated`
defaulting to `Date.now`), and the six counter route handlers are
textually duplicated between the two kinds in `server.js`; we model the
shared read-modify-write body once and index the error messages by kind. -/

/-- A counter document, as in `VisitorCounterSchema` / `QuestionRequestCounterSchema`
(`server.js` lines 99-108): a count and a `lastUpdated` timestamp
(timestamps are abstracted to `Nat`). -/
structure CounterDoc where
  count : Nat
  lastUpdated : Nat
  deriving Repr, DecidableEq

/-- The three operations the counter routes perform. -/
inductive CounterOp where
  | get
  | increment
  | reset
  deriving Repr, DecidableEq

/-- The two counter kinds of the server. -/
inductive CounterKind where
  | visitor
  | questionRequest
  deriving Repr, DecidableEq

/-- One successful read-modify-write pass of a counter route
(`server.js` lines 176-191, 212-223, 244-259 and their question-request
duplicates 282-297, 318-329, 350-365).  `findOne` returns the first
document of the collection; a fresh document is created when none exists
(count 1 for increment, 0 for get/reset), otherwise the found document is
mutated and saved in place.  Returns the new collection together with the
`count` and `lastUpdated` values reported in the JSON response. -/
def counterStep : CounterOp → Nat → List CounterDoc → List CounterDoc × Nat × Nat
  | .increment, now, [] => ([⟨1, now⟩], 1, now)
  | .increment, now, d :: rest => ((⟨d.count + 1, now⟩ : CounterDoc) :: rest, d.count + 1, now)
  | .get, now, [] => ([⟨0, now⟩], 0, now)
  | .get, _, d :: rest => (d :: rest, d.count, d.lastUpdated)
  | .reset, now, [] => ([⟨0, now⟩], 0, now)
  | .reset, now, _ :: rest => ((⟨0, now⟩ : CounterDoc) :: rest, 0, now)

/-- Run a sequence of counter operations (each tagged with its wall-clock
time) against a counter collection, threading the collection through. -/
def runCounterOps : List (CounterOp × Nat) → List CounterDoc → List CounterDoc
  | [], docs => docs
  | (op, now) :: rest, docs => runCounterOps rest (counterStep op now docs).1

/-- The kind- and operation-specific error message of the HTTP 500 response
(`server.js` lines 198, 230, 266, 304, 336, 372). -/
def counterErrorMsg : CounterKind → CounterOp → String
  | .visitor, .increment => "Không thể cập nhật số lượt truy cập"
  | .visitor, .get => "Không thể lấy số lượt truy cập"
  | .visitor, .reset => "Không thể reset số lượt truy cập"
  | .questionRequest, .increment => "Không thể cập nhật số lượng câu hỏi"
  | .questionRequest, .get => "Không thể lấy số lượng câu hỏi"
  | .questionRequest, .reset => "Không thể reset số lượng câu hỏi"

/-- Outcome of a counter route: either the successful JSON payload, or the
HTTP 500 error body `{success:false, error: message, details}`. -/
inductive RouteOutcome (α : Type) where
  | ok (a : α)
  | err500 (message : String) (details : String)
  deriving Repr, DecidableEq

/-- HTTP status of a counter route outcome: `res.json` on success (200),
`res.status(500).json` on final failure. -/
def RouteOutcome.status : RouteOutcome α → Nat
  | .ok _ => 200
  | .err500 _ _ => 500

/-- Trace of one run of the retry loop: the outcome (`none` only in the
unreachable case where the loop is entered with zero budget), the number
of attempts actually made, and the list of waits (in ms) performed
between attempts. -/
structure LoopTrace (α : Type) where
  outcome : Option (RouteOutcome α)
  attempts : Nat
  waits : List Nat
  deriving Repr, DecidableEq

/-- The retry loop shared by all six counter routes (`server.js` lines
173-204 and duplicates): `let retries = 2; while (retries > 0)`.  Each
iteration tries the attempt of index `i`; success returns its payload at
once; on failure `retries` is decremented, and when it reaches 0 the
HTTP 500 body is returned, otherwise the loop waits 1000ms and tries
again. -/
def retryLoop (attempt : Nat → Except String α) (errMsg : String) :
    Nat → Nat → LoopTrace α
  | 0, _ => ⟨none, 0, []⟩
  | r + 1, i =>
    match attempt i with
    | .ok a => ⟨some (.ok a), 1, []⟩
    | .error e =>
      if r = 0 then ⟨some (.err500 errMsg e), 1, []⟩
      else
        let t := retryLoop attempt errMsg r (i + 1)
        ⟨t.outcome, t.attempts + 1, 1000 :: t.waits⟩

/-- One attempt of a counter route: attempt `i` fails with the oracle's
message when `fail i` is `some`, otherwise it performs the full
read-modify-write sequence on the collection.  A failed attempt leaves
the collection unchanged, so every attempt starts from the same state. -/
def counterAttempt (op : CounterOp) (now : Nat) (docs : List CounterDoc)
    (fail : Nat → Option String) (i : Nat) :
    Except String (List CounterDoc × Nat × Nat) :=
  match fail i with
  | some e => .error e
  | none => .ok (counterStep op now docs)

/-- A full counter route handler: the retry loop (entered with
`retries = 2`) around the read-modify-write attempt, with the
kind-specific error message. -/
def counterRoute (kind : CounterKind) (op : CounterOp) (now : Nat)
    (docs : List CounterDoc) (fail : Nat → Option String) :
    LoopTrace (List CounterDoc × Nat × Nat) :=
  retryLoop (counterAttempt op now docs fail) (counterErrorMsg kind op) 2 0

/-! ### Chat data model (ChatData collection) -/

/-- A chat transcript record, as in `ChatDataSchema` (`server.js` lines
81-87).  `_id` is abstracted to a `Nat`; `questionCount` is an
`Option Nat` because documents created before the field existed may lack
it (the aggregate route reads it as `q.questionCount || 0`); `createdAt`
is a timestamp. -/
structure ChatRecord where
  id : Nat
  title : String
  content : String
  date : String
  questionCount : Option Nat
  createdAt : Nat
  deriving Repr, DecidableEq

/-- The `$inc: {questionCount: 1}` update of `findByIdAndUpdate`
(`server.js` line 426): a missing `questionCount` is treated as 0 by the
increment; no other field is touched. -/
def bumpQuestion (r : ChatRecord) : ChatRecord :=
  { r with questionCount := some (r.questionCount.getD 0 + 1) }

/-- `POST /api/data/:id/increment` (`server.js` lines 422-443):
`findByIdAndUpdate(id, {$inc:{questionCount:1}}, {new:true})`.  Returns
the updated document (`none` when no document has the id, in which case
the route answers 404 `Question not found`) and the new collection. -/
def incrementQuestion (id : Nat) (db : List ChatRecord) :
    Option ChatRecord × List ChatRecord :=
  match db.find? (fun r => r.id = id) with
  | none => (none, db)
  | some r =>
    (some (bumpQuestion r),
     db.map (fun s => if s.id = id then bumpQuestion s else s))

/-- `GET /api/questions/total-count` (`server.js` lines 446-463): loads
all records and computes `reduce((sum, q) => sum + (q.questionCount || 0), 0)`
together with `questions.length`. -/
def totalQuestionCount (db : List ChatRecord) : Nat × Nat :=
  (db.foldl (fun sum q => sum + q.questionCount.getD 0) 0, db.length)

/-- An item of the `GET /api/data` response (`server.js` lines 388-393):
exactly the fields `id` (mapped from `_id`), `title`, `content`, `date`;
`questionCount` and `createdAt` are not part of the list view. -/
structure ChatListItem where
  id : Nat
  title : String
  content : String
  date : String
  deriving Repr, DecidableEq

/-- The comparison used by `sort({createdAt: -1})`: newest (largest
`createdAt`) first. -/
def newestFirst (a b : ChatRecord) : Bool :=
  Nat.ble b.createdAt a.createdAt

/-- The projection of `server.js` lines 388-393 mapping a stored record to
its public list item. -/
def toListItem (r : ChatRecord) : ChatListItem :=
  ⟨r.id, r.title, r.content, r.date⟩

/-- `GET /api/data` (`server.js` lines 384-402): the whole collection,
sorted by `createdAt` descending, each record projected to
`{id, title, content, date}`.  No pagination. -/
def listAll (db : List ChatRecord) : List ChatListItem :=
  (db.mergeSort newestFirst).map toListItem

/-! ### Image gallery model (CarouselImage collection and the uploads directory)

Files on disk under the managed upload directory are modelled as a list of
`(filename, content)` pairs; file contents are abstracted to the string of
bytes written (for the base64 path, the payload handed to the Buffer
decoder — the decoding itself is Node library behaviour outside this
repository and none of the handlers inspect the decoded bytes). -/

/-- A gallery metadata record, as in `CarouselImageSchema` (`server.js`
lines 90-96). -/
structure GalleryImage where
  id : Nat
  title : String
  imageUrl : String
  alt : String
  order : Nat
  createdAt : Nat
  deriving Repr, DecidableEq

/-- A file in the uploads directory: its name and its content. -/
structure FileEntry where
  name : String
  content : String
  deriving Repr, DecidableEq

/-- The gallery side of the server state: the files of the uploads
directory and the CarouselImage collection. -/
structure GalleryState where
  files : List FileEntry
  images : List GalleryImage
  deriving Repr, DecidableEq

/-- The multer `fileFilter` whitelist (`server.js` line 33). -/
def allowedMimes : List String :=
  ["image/jpeg", "image/png", "image/gif", "image/webp"]

/-- The multer `fileFilter` (`server.js` lines 32-39): accept a file whose
declared mime type is whitelisted, otherwise reject with
`Only image files are allowed`. -/
def fileFilter (mimetype : String) : Except String Unit :=
  if mimetype ∈ allowedMimes then .ok ()
  else .error ("Only image files are allowed")

/-- Whether a character is a word character of the JS regex class `\w`
(ASCII letters, digits, underscore). -/
def isWordChar (c : Char) : Bool :=
  c.isAlphanum || c = '_'

/-- Drop `pat` from the front of `cs`, or `none` when `cs` does not start
with `pat`. -/
def dropFront : List Char → List Char → Option (List Char)
  | [], cs => some cs
  | _ :: _, [] => none
  | p :: ps, c :: cs => if p = c then dropFront ps cs else none

/-- The stripping step of the base64 upload handler (`server.js` line
541): `imageData.replace(/^data:image\/\w+;base64,/, '')` — remove a
leading `data:image/<word chars>;base64,` when present, else leave the
string unchanged. -/
def stripDataUri (s : String) : String :=
  match dropFront ("data:image/").toList s.toList with
  | none => s
  | some rest =>
    let w := rest.takeWhile isWordChar
    match w, dropFront (";base64,").toList (rest.dropWhile isWordChar) with
    | _ :: _, some tail => String.mk tail
    | _, _ => s

/-- `path.extname` restricted to the plain basenames multer receives: the
substring from the last `.` on, empty when there is no `.` or the only
`.` is the leading character (`server.js` line 25 uses it on the uploaded
file's original name). -/
def extnameOf (s : String) : String :=
  let cs := s.toList
  let tl := cs.drop 1
  match (List.range tl.length).filter (fun i => tl.getD i ' ' = '.') with
  | [] => ""
  | is => String.mk ('.' :: (tl.drop ((is.getLast?.getD 0) + 1)))

/-- The collision-resistant multer filename (`server.js` line 25):
`Date.now() + '-' + round(random()*1e9) + extname(originalname)`. -/
def multerFilename (now rand : Nat) (origName : String) : String :=
  toString now ++ "-" ++ toString rand ++ extnameOf origName

/-- The base64 filename (`server.js` line 542):
`base64-<Date.now()>-<round(random()*1e9)>.png` — always `.png`,
whatever the encoded type was. -/
def base64Filename (now rand : Nat) : String :=
  "base64-" ++ toString now ++ "-" ++ toString rand ++ ".png"

/-- `fs.unlink` of a path in the uploads directory: the named file is
gone afterwards. -/
def unlinkFile (name : String) (files : List FileEntry) : List FileEntry :=
  files.filter (fun e => e.name ≠ name)

/-- Outcome of an upload route. -/
inductive UploadResult where
  | rejected (error : String)
  | noData (error : String)
  | saveFailed (error : String)
  | created (data : GalleryImage)
  deriving Repr, DecidableEq

/-- HTTP status of an upload outcome.  `saveFailed`/`noData` are the
handlers' own `res.status(400)` (`server.js` lines 503, 527, 537, 564);
`created` is `res.json` (200).  For `rejected` — the multer `fileFilter`
error, which is surfaced by framework error middleware outside this
repository — the status is modelled from the spec:
`UnsupportedMediaType` (bad upload mime type, HTTP 400). -/
def UploadResult.status : UploadResult → Nat
  | .rejected _ => 400
  | .noData _ => 400
  | .saveFailed _ => 400
  | .created _ => 200

/-- `POST /api/carousel/upload` (`server.js` lines 30-40 and 500-529) as
one pipeline.  Multer runs the `fileFilter` first; rejection aborts the
request before any file is written.  An accepted file is written to the
uploads directory under the generated name before the handler runs; the
handler then creates the CarouselImage record (title defaulting to
`Untitled`, alt to the empty string, order to 0).  When the record save
fails (`dbFail`, error message `dbErr`), the catch block unlinks the
just-written file and answers 400. -/
def uploadPipeline (now rand freshId : Nat) (dbFail : Bool) (dbErr : String)
    (mimetype fileBytes origName : String)
    (title alt : Option String) (order : Option Nat)
    (st : GalleryState) : GalleryState × UploadResult :=
  match fileFilter mimetype with
  | .error e => (st, .rejected e)
  | .ok _ =>
    let filename := multerFilename now rand origName
    let files1 := st.files ++ [⟨filename, fileBytes⟩]
    if dbFail then
      ({ st with files := unlinkFile filename files1 }, .saveFailed dbErr)
    else
      let img : GalleryImage :=
        ⟨freshId, title.getD ("Untitled"), "/uploads/" ++ filename,
         alt.getD (""), order.getD 0, now⟩
      (⟨files1, st.images ++ [img]⟩, .created img)

/-- `POST /api/carousel/upload-base64` (`server.js` lines 532-566).  A
missing/empty `imageData` answers 400 at once.  Otherwise the optional
data-URI header is stripped, the payload is written synchronously to
`base64-<now>-<rand>.png`, and the CarouselImage record is created.  No
mime or content validation happens on this path, and the catch block
performs no file cleanup: when the record save fails the written file
remains. -/
def base64Pipeline (now rand freshId : Nat) (dbFail : Bool) (dbErr : String)
    (imageData : String) (title alt : Option String) (order : Option Nat)
    (st : GalleryState) : GalleryState × UploadResult :=
  if imageData = "" then (st, .noData ("No image data provided"))
  else
    let base64Data := stripDataUri imageData
    let filename := base64Filename now rand
    let files1 := st.files ++ [⟨filename, base64Data⟩]
    if dbFail then
      ({ st with files := files1 }, .saveFailed dbErr)
    else
      let img : GalleryImage :=
        ⟨freshId, title.getD ("Untitled"), "/uploads/" ++ filename,
         alt.getD (""), order.getD 0, now⟩
      (⟨files1, st.images ++ [img]⟩, .created img)

/-! ### The HTTP front end: connection-check middleware and route dispatch -/

/-- The whole persistent state the routes operate on. -/
structure ServerState where
  visitorDocs : List CounterDoc
  questionDocs : List CounterDoc
  chatDb : List ChatRecord
  gallery : GalleryState
  deriving Repr, DecidableEq

/-- Per-request environment: wall-clock time, the random filename
component, the id the storage layer would assign to a newly created
document, the locale-formatted date string, the transient-failure oracle
driving the counter retry loops, and whether a record save fails on the
non-counter routes (with its error message). -/
structure Env where
  now : Nat
  rand : Nat
  freshId : Nat
  dateStr : String
  fail : Nat → Option String
  dbFail : Bool
  dbErr : String

/-- The requests of the API routes registered after the connection-check
middleware (`server.js` lines 172-585). -/
inductive ApiRequest where
  | visitorIncrement
  | visitorGet
  | visitorReset
  | questionIncrement
  | questionGet
  | questionReset
  | dataList
  | dataAdd (title content : Option String)
  | dataIncrement (id : Nat)
  | totalCount
  | dataDelete (id : Nat)
  | carouselList
  | carouselAdd (title imageUrl alt : Option String) (order : Option Nat)
  | carouselUpload (mimetype fileBytes origName : String)
      (title alt : Option String) (order : Option Nat)
  | carouselUploadBase64 (imageData : String) (title alt : Option String)
      (order : Option Nat)
  | carouselDelete (id : Nat)

/-- The comparison used by `sort({order: 1})` on the carousel list route
(`server.js` line 480). -/
def orderAsc (a b : GalleryImage) : Bool :=
  Nat.ble a.order b.order

/-- The response of a dispatched route. -/
inductive RouteResp where
  | counter (t : LoopTrace (List CounterDoc × Nat × Nat))
  | chatList (items : List ChatListItem)
  | chatAdded (r : ChatRecord)
  | chatIncremented (r : ChatRecord)
  | notFound404 (error : String)
  | validationError400 (error : String)
  | totals (totalCount totalQuestions : Nat)
  | deleted (message : String)
  | galleryList (items : List GalleryImage)
  | galleryAdded (img : GalleryImage)
  | upload (u : UploadResult)

/-- The body of the connection-check middleware's 503 response
(`server.js` lines 158-162). -/
structure NotReadyBody where
  success : Bool
  error : String
  message : String
  deriving Repr, DecidableEq

/-- The literal 503 body of `server.js` lines 158-162. -/
def dbNotConnectedBody : NotReadyBody :=
  ⟨false, "Database not connected", "Please try again in a few moments"⟩

/-- The middleware response `res.status(503).json(dbNotConnectedBody)`
(`server.js` line 158): HTTP status paired with the body. -/
def notReadyResponse : Nat × NotReadyBody :=
  (503, dbNotConnectedBody)

/-- Dispatch a request to its route handler (the routes of `server.js`
lines 172-585), threading the server state. -/
def dispatch (env : Env) (req : ApiRequest) (st : ServerState) :
    ServerState × RouteResp :=
  match req with
  | .visitorIncrement =>
    let t := counterRoute .visitor .increment env.now st.visitorDocs env.fail
    (match t.outcome with
     | some (.ok (docs, _, _)) => { st with visitorDocs := docs }
     | _ => st, .counter t)
  | .visitorGet =>
    let t := counterRoute .visitor .get env.now st.visitorDocs env.fail
    (match t.outcome with
     | some (.ok (docs, _, _)) => { st with visitorDocs := docs }
     | _ => st, .counter t)
  | .visitorReset =>
    let t := counterRoute .visitor .reset env.now st.visitorDocs env.fail
    (match t.outcome with
     | some (.ok (docs, _, _)) => { st with visitorDocs := docs }
     | _ => st, .counter t)
  | .questionIncrement =>
    let t := counterRoute .questionRequest .increment env.now st.questionDocs env.fail
    (match t.outcome with
     | some (.ok (docs, _, _)) => { st with questionDocs := docs }
     | _ => st, .counter t)
  | .questionGet =>
    let t := counterRoute .questionRequest .get env.now st.questionDocs env.fail
    (match t.outcome with
     | some (.ok (docs, _, _)) => { st with questionDocs := docs }
     | _ => st, .counter t)
  | .questionReset =>
    let t := counterRoute .questionRequest .reset env.now st.questionDocs env.fail
    (match t.outcome with
     | some (.ok (docs, _, _)) => { st with questionDocs := docs }
     | _ => st, .counter t)
  | .dataList => (st, .chatList (listAll st.chatDb))
  | .dataAdd title content =>
    match title, content with
    | some t, some c =>
      if t = "" ∨ c = "" then
        (st, .validationError400 ("ChatData validation failed"))
      else
        let r : ChatRecord := ⟨env.freshId, t, c, env.dateStr, some 0, env.now⟩
        ({ st with chatDb := st.chatDb ++ [r] }, .chatAdded r)
    | _, _ => (st, .validationError400 ("ChatData validation failed"))
  | .dataIncrement id =>
    match incrementQuestion id st.chatDb with
    | (none, _) => (st, .notFound404 ("Question not found"))
    | (some r, db) => ({ st with chatDb := db }, .chatIncremented r)
  | .totalCount =>
    let p := totalQuestionCount st.chatDb
    (st, .totals p.1 p.2)
  | .dataDelete id =>
    ({ st with chatDb := st.chatDb.filter (fun r => r.id ≠ id) },
     .deleted ("Deleted successfully"))
  | .carouselList => (st, .galleryList (st.gallery.images.mergeSort orderAsc))
  | .carouselAdd title imageUrl alt order =>
    match imageUrl with
    | some u =>
      if u = "" then (st, .validationError400 ("CarouselImage validation failed"))
      else
        let img : GalleryImage :=
          ⟨env.freshId, title.getD ("Untitled"), u, alt.getD (""), order.getD 0, env.now⟩
        ({ st with gallery := ⟨st.gallery.files, st.gallery.images ++ [img]⟩ },
         .galleryAdded img)
    | none => (st, .validationError400 ("CarouselImage validation failed"))
  | .carouselUpload mimetype fileBytes origName title alt order =>
    let p := uploadPipeline env.now env.rand env.freshId env.dbFail env.dbErr
      mimetype fileBytes origName title alt order st.gallery
    ({ st with gallery := p.1 }, .upload p.2)
  | .carouselUploadBase64 imageData title alt order =>
    let p := base64Pipeline env.now env.rand env.freshId env.dbFail env.dbErr
      imageData title alt order st.gallery
    ({ st with gallery := p.1 }, .upload p.2)
  | .carouselDelete id =>
    match st.gallery.images.find? (fun i => i.id = id) with
    | none => ({ st with gallery := ⟨st.gallery.files,
                  st.gallery.images.filter (fun i => i.id ≠ id)⟩ },
               .deleted ("Deleted successfully"))
    | some img =>
      let files1 :=
        if img.imageUrl.startsWith ("/uploads/") then
          unlinkFile (img.imageUrl.drop 9) st.gallery.files
        else st.gallery.files
      ({ st with gallery := ⟨files1, st.gallery.images.filter (fun i => i.id ≠ id)⟩ },
       .deleted ("Deleted successfully"))

/-- The server as seen by one request: the connection-check middleware
(`server.js` lines 156-165) answers 503 with `dbNotConnectedBody` when
the storage connection is not ready, and only otherwise dispatches to the
route. -/
def handleRequest (ready : Bool) (env : Env) (req : ApiRequest)
    (st : ServerState) : ServerState × ((Nat × NotReadyBody) ⊕ RouteResp) :=
  if ready then
    let p := dispatch env req st
    (p.1, Sum.inr p.2)
  else (st, Sum.inl notReadyResponse)

/-! ### Helper lemmas -/

/-- A counter step never grows a collection that already has a document,
and creates exactly one when there is none; in particular it preserves
having at most one document. -/
theorem counterStep_length_le_one (op : CounterOp) (now : Nat)
    (docs : List CounterDoc) (h : docs.length ≤ 1) :
    (counterStep op now docs).1.length ≤ 1 := by
  cases docs with
  | nil => cases op <;> simp [counterStep]
  | cons d rest => cases op <;> simpa [counterStep] using h

/-- Running any sequence of counter operations preserves the at-most-one
document bound. -/
theorem runCounterOps_length_le_one (ops : List (CounterOp × Nat))
    (docs : List CounterDoc) (h : docs.length ≤ 1) :
    (runCounterOps ops docs).length ≤ 1 := by
  induction ops generalizing docs with
  | nil => exact h
  | cons p rest ih =>
    obtain ⟨op, now⟩ := p
    exact ih _ (counterStep_length_le_one op now docs h)

end Server

namespace Server

/-! ### The claims -/

/-- C1 counterexample: the claim says the read-modify-write sequence is
attempted up to 3 times total, so with a transient failure that clears
after two failed attempts the route would succeed on the third attempt.
In the code (`let retries = 2`, decremented on each failure, HTTP 500
when it reaches 0) only 2 attempts are ever made: under exactly that
failure pattern the visitor-increment route answers the HTTP 500 body
after 2 attempts, never reaching the third. -/
theorem retry_stops_after_two_attempts :
    (counterRoute .visitor .increment 0 []
        (fun i => if i < 2 then some ("boom") else none)).attempts = 2 ∧
    (counterRoute .visitor .increment 0 []
        (fun i => if i < 2 then some ("boom") else none)).outcome =
      some (.err500 ("Không thể cập nhật số lượt truy cập") ("boom")) := by
  constructor <;> rfl

/-- C1 (amended): for every counter operation on either counter kind, the
full read-modify-write sequence is attempted up to 2 times total (1 retry
after the first failure) with a 1000ms wait before the retry; a
successful attempt short-circuits the loop and returns immediately; only
after both attempts fail does the route respond with HTTP 500 carrying
the kind-specific error message and the underlying failure detail. -/
theorem counterRoute_retry_policy (kind : CounterKind) (op : CounterOp)
    (now : Nat) (docs : List CounterDoc) (fail : Nat → Option String) :
    (counterRoute kind op now docs fail).attempts ≤ 2 ∧
    (fail 0 = none →
      counterRoute kind op now docs fail =
        ⟨some (.ok (counterStep op now docs)), 1, []⟩) ∧
    (∀ e1, fail 0 = some e1 → fail 1 = none →
      counterRoute kind op now docs fail =
        ⟨some (.ok (counterStep op now docs)), 2, [1000]⟩) ∧
    (∀ e1 e2, fail 0 = some e1 → fail 1 = some e2 →
      counterRoute kind op now docs fail =
        ⟨some (.err500 (counterErrorMsg kind op) e2), 2, [1000]⟩ ∧
      ((.err500 (counterErrorMsg kind op) e2 :
          RouteOutcome (List CounterDoc × Nat × Nat)).status = 500)) := by
  refine ⟨?_, fun h0 => ?_, fun e1 h0 h1 => ?_, fun e1 e2 h0 h1 => ⟨?_, rfl⟩⟩ <;>
    rcases h0 : fail 0 with _ | e <;>
      rcases h1 : fail 1 with _ | f <;>
        simp_all [counterRoute, retryLoop, counterAttempt]

/-- C1 witness: the amended retry policy applied to a concrete failure
oracle that fails once and then succeeds. -/
theorem counterRoute_retry_policy_witness :
    counterRoute .visitor .get 5 [] (fun i => if i = 0 then some ("e1") else none) =
      ⟨some (.ok (counterStep .get 5 [])), 2, [1000]⟩ :=
  ((counterRoute_retry_policy .visitor .get 5 []
      (fun i => if i = 0 then some ("e1") else none)).2.2.1 ("e1") rfl rfl)

/-- C2: starting from a state with no counter document, every sequence of
get/increment/reset operations keeps at most one counter document; an
operation on an empty collection creates exactly one document, and an
operation on a nonempty collection keeps its length and its tail, i.e. it
updates the single found document in place rather than creating another.
Both counter kinds run this same (textually duplicated) handler body,
modelled once by `counterStep`. -/
theorem counter_at_most_one_doc (ops : List (CounterOp × Nat)) :
    (runCounterOps ops []).length ≤ 1 ∧
    (∀ op now, (counterStep op now []).1.length = 1) ∧
    (∀ op now d rest,
      (counterStep op now (d :: rest)).1.length = (d :: rest).length ∧
      (counterStep op now (d :: rest)).1.tail = rest) := by
  refine ⟨runCounterOps_length_le_one ops [] (by simp), ?_, ?_⟩
  · intro op now; cases op <;> rfl
  · intro op now d rest; cases op <;> exact ⟨rfl, rfl⟩

/-- C8: for any starting collection (of either counter kind — both run
the same handler body `counterStep`), a reset followed immediately by a
get reports count 0. -/
theorem reset_then_get_yields_zero (docs : List CounterDoc) (now1 now2 : Nat) :
    (counterStep .get now2 (counterStep .reset now1 docs).1).2.1 = 0 := by
  cases docs <;> rfl

/-- Folding addition of a projection over a list from an accumulator is
the accumulator plus the sum of the mapped list. -/
theorem foldl_add_proj_eq_sum (f : α → Nat) (l : List α) (n : Nat) :
    l.foldl (fun sum q => sum + f q) n = n + (l.map f).sum := by
  induction l generalizing n with
  | nil => simp
  | cons a t ih => simp [ih, Nat.add_assoc]

/-- An environment used to instantiate theorems at concrete inputs. -/
def sampleEnv : Env :=
  ⟨0, 0, 0, "", fun _ => none, false, ""⟩

/-- A concrete chat record used to instantiate theorems. -/
def sampleRecord : ChatRecord :=
  ⟨1, "t", "c", "d", some 3, 0⟩

/-- C4: incrementing the question count of a nonexistent id answers 404
`Question not found` and changes no stored record; on an existing id the
route increments exactly that record's `questionCount` by 1 (a missing
count reading as 0), leaves its `title`, `content`, `date` and
`createdAt` untouched, leaves every other record unchanged, and responds
with the updated record. -/
theorem incrementQuestion_correct (env : Env) (id : Nat) (st : ServerState) :
    (st.chatDb.find? (fun r => r.id = id) = none →
      dispatch env (.dataIncrement id) st = (st, .notFound404 ("Question not found"))) ∧
    (∀ r, st.chatDb.find? (fun r => r.id = id) = some r →
      (incrementQuestion id st.chatDb).1 = some (bumpQuestion r) ∧
      (bumpQuestion r).questionCount.getD 0 = r.questionCount.getD 0 + 1 ∧
      (bumpQuestion r).title = r.title ∧
      (bumpQuestion r).content = r.content ∧
      (bumpQuestion r).date = r.date ∧
      (bumpQuestion r).createdAt = r.createdAt ∧
      dispatch env (.dataIncrement id) st =
        ({ st with chatDb :=
            (st.chatDb.map (fun s => if s.id = id then bumpQuestion s else s)) },
         .chatIncremented (bumpQuestion r)) ∧
      (∀ s ∈ st.chatDb, s.id ≠ id → s ∈ (incrementQuestion id st.chatDb).2)) := by
  constructor
  · intro h
    simp [dispatch, incrementQuestion, h]
  · intro r h
    refine ⟨?_, rfl, rfl, rfl, rfl, rfl, ?_, ?_⟩
    · simp [incrementQuestion, h]
    · simp [dispatch, incrementQuestion, h]
    · intro s hs hne
      have : (if s.id = id then bumpQuestion s else s) = s := by simp [hne]
      simp only [incrementQuestion, h]
      exact this ▸ List.mem_map_of_mem _ hs

/-- C4 witness: the increment route applied to a concrete one-record
collection containing the id. -/
theorem incrementQuestion_correct_witness :
    (incrementQuestion 1 [sampleRecord]).1 = some (bumpQuestion sampleRecord) :=
  ((incrementQuestion_correct sampleEnv 1 ⟨[], [], [sampleRecord], ⟨[], []⟩⟩).2
    sampleRecord (by simp [sampleRecord])).1

/-- C6: the total-count route returns the sum of `questionCount` over all
records (a missing count contributing 0) together with the number of
records; on records with question counts 3, 0 and 7 it returns
totalCount 10 and totalQuestions 3. -/
theorem totalQuestionCount_correct (db : List ChatRecord) :
    totalQuestionCount db =
      ((db.map (fun q => q.questionCount.getD 0)).sum, db.length) ∧
    totalQuestionCount
      [⟨1, "a", "x", "d1", some 3, 0⟩, ⟨2, "b", "y", "d2", some 0, 1⟩,
       ⟨3, "c", "z", "d3", some 7, 2⟩] = (10, 3) := by
  constructor
  · unfold totalQuestionCount
    rw [foldl_add_proj_eq_sum]
    simp
  · rfl

/-- The sort comparison of the chat list view is transitive. -/
theorem newestFirst_trans (a b c : ChatRecord) :
    newestFirst a b = true → newestFirst b c = true → newestFirst a c = true := by
  intro h1 h2
  simp only [newestFirst, Nat.ble_eq] at h1 h2 ⊢
  exact Nat.le_trans h2 h1

/-- The sort comparison of the chat list view is total. -/
theorem newestFirst_total (a b : ChatRecord) :
    (newestFirst a b || newestFirst b a) = true := by
  rcases Nat.le_total b.createdAt a.createdAt with h | h <;>
    simp [newestFirst, Nat.ble_eq, h]

/-- C9: the chat list route returns the entire collection — a projection
of some permutation `s` of the stored records, ordered newest-first by
`createdAt` — with as many items as records; each returned item is the
projection `toListItem` of a stored record, carrying exactly the fields
id (mapped from the internal id), title, content and date (the
`ChatListItem` type has no `questionCount` or `createdAt` field). -/
theorem listAll_correct (db : List ChatRecord) :
    ∃ s : List ChatRecord, s.Perm db ∧
      s.Pairwise (fun a b => b.createdAt ≤ a.createdAt) ∧
      listAll db = s.map toListItem ∧
      (∀ i ∈ listAll db, ∃ r ∈ db, i = toListItem r) ∧
      (listAll db).length = db.length := by
  refine ⟨db.mergeSort newestFirst, List.mergeSort_perm db newestFirst, ?_, rfl, ?_, ?_⟩
  · exact (List.sorted_mergeSort newestFirst_trans newestFirst_total db).imp
      (fun h => Nat.le_of_ble_eq_true h)
  · intro i hi
    obtain ⟨r, hr, hri⟩ := List.mem_map.1 hi
    exact ⟨r, (List.mergeSort_perm db newestFirst).mem_iff.1 hr, hri.symm⟩
  · simp [listAll, (List.mergeSort_perm db newestFirst).length_eq]

/-- C7: when the storage connection is not ready, every route — whatever
the request and whatever the current state — answers the 503
service-unavailable response with body
`{success:false, error:"Database not connected", message:"Please try
again in a few moments"}` before dispatching to any handler, and the
stored state is unchanged. -/
theorem not_ready_returns_503 (env : Env) (req : ApiRequest) (st : ServerState) :
    handleRequest false env req st = (st, Sum.inl notReadyResponse) ∧
    notReadyResponse.1 = 503 ∧
    notReadyResponse.2.success = false ∧
    notReadyResponse.2.error = "Database not connected" ∧
    notReadyResponse.2.message = "Please try again in a few moments" :=
  ⟨rfl, rfl, rfl, rfl, rfl⟩

/-- Dropping a list from the front of itself followed by anything yields
the remainder. -/
theorem dropFront_self_append (p cs : List Char) :
    dropFront p (p ++ cs) = some cs := by
  induction p with
  | nil => rfl
  | cons a t ih => simp [dropFront, ih]

/-- `takeWhile`/`dropWhile` split an append at the boundary when the
left part satisfies the predicate throughout and the right part starts
with a failing element. -/
theorem takeWhile_dropWhile_append (p : α → Bool) (w r : List α)
    (hall : ∀ c ∈ w, p c = true)
    (hr : ∀ c cs, r = c :: cs → p c = false) :
    (w ++ r).takeWhile p = w ∧ (w ++ r).dropWhile p = r := by
  induction w with
  | nil =>
    cases hcase : r with
    | nil => simp
    | cons c cs =>
      have := hr c cs hcase
      simp [List.takeWhile_cons, List.dropWhile_cons, this]
  | cons a t ih =>
    have ha := hall a (by simp)
    obtain ⟨h1, h2⟩ := ih (fun c hc => hall c (by simp [hc]))
    simp [List.takeWhile_cons, List.dropWhile_cons, ha, h1, h2]

/-- The data-URI stripping of the base64 handler removes a well-formed
`data:image/<word>;base64,` header. -/
theorem stripDataUri_of_data_uri (w s : String) (hw : w.toList ≠ [])
    (hall : ∀ c ∈ w.toList, isWordChar c = true) :
    stripDataUri ("data:image/" ++ w ++ ";base64," ++ s) = s := by
  have hbig : ("data:image/" ++ w ++ ";base64," ++ s).toList
      = ("data:image/").toList ++ (w.toList ++ ((";base64,").toList ++ s.toList)) := by
    simp [String.toList, String.data_append]
  have hsplit := takeWhile_dropWhile_append isWordChar w.toList
    ((";base64,").toList ++ s.toList) hall
    (by
      intro c cs h
      have hsemi : (";base64,").toList = ';' :: ("base64,").toList := rfl
      rw [hsemi, List.cons_append] at h
      cases h
      decide)
  unfold stripDataUri
  rw [hbig, dropFront_self_append]
  simp only [hsplit.1, hsplit.2, dropFront_self_append]
  cases hlist : w.toList with
  | nil => exact absurd hlist hw
  | cons c cs => rfl

/-- The data-URI stripping leaves a string without the header untouched. -/
theorem stripDataUri_no_header (s : String)
    (h : dropFront ("data:image/").toList s.toList = none) :
    stripDataUri s = s := by
  unfold stripDataUri
  rw [h]

/-- Unlinking a freshly written file (whose name occurs nowhere else in
the uploads directory) restores the directory exactly. -/
theorem unlinkFile_append_fresh (name c : String) (files : List FileEntry)
    (h : ∀ e ∈ files, e.name ≠ name) :
    unlinkFile name (files ++ [⟨name, c⟩]) = files := by
  unfold unlinkFile
  rw [List.filter_append]
  have h1 : files.filter (fun e => e.name ≠ name) = files :=
    List.filter_eq_self.2 (fun a ha => by simp [h a ha])
  have h2 : ([⟨name, c⟩] : List FileEntry).filter (fun e => e.name ≠ name) = [] := by
    simp
  rw [h1, h2, List.append_nil]

/-- C3: a multipart upload whose declared mime type is not one of
image/jpeg, image/png, image/gif, image/webp is rejected by the multer
`fileFilter` with `Only image files are allowed` — reported with HTTP
status 400 (`UnsupportedMediaType`) — and the gallery state is returned
untouched: no file is written to the uploads directory and no gallery
record is created. -/
theorem upload_rejects_bad_mime (now rand freshId : Nat) (dbFail : Bool)
    (dbErr mimetype fileBytes origName : String) (title alt : Option String)
    (order : Option Nat) (st : GalleryState)
    (h : mimetype ∉ allowedMimes) :
    uploadPipeline now rand freshId dbFail dbErr mimetype fileBytes origName
        title alt order st = (st, .rejected ("Only image files are allowed")) ∧
    (UploadResult.rejected ("Only image files are allowed")).status = 400 := by
  constructor
  · simp [uploadPipeline, fileFilter, h]
  · rfl

/-- C3 witness: an `application/pdf` upload against an empty gallery. -/
theorem upload_rejects_bad_mime_witness :
    uploadPipeline 0 0 0 false ("") ("application/pdf") ("bytes") ("a.pdf")
        none none none ⟨[], []⟩ =
      (⟨[], []⟩, .rejected ("Only image files are allowed")) :=
  (upload_rejects_bad_mime 0 0 0 false ("") ("application/pdf") ("bytes")
    ("a.pdf") none none none ⟨[], []⟩ (by decide)).1

/-- C5: when the gallery-record save fails after the file write, the
multipart upload route unlinks the just-written file — the uploads
directory is exactly as before, so no orphaned file remains — and
answers 400; under the same failure the base64 route performs no cleanup:
the file it wrote remains in the uploads directory, and it answers 400.
The freshness hypothesis says the generated filename did not already
name a file (the collision-resistant naming). -/
theorem upload_cleanup_asymmetry (now rand freshId : Nat)
    (dbErr mimetype fileBytes origName imageData : String)
    (title alt : Option String) (order : Option Nat) (st : GalleryState)
    (hmime : mimetype ∈ allowedMimes)
    (hfresh : ∀ e ∈ st.files, e.name ≠ multerFilename now rand origName)
    (hdata : imageData ≠ "") :
    uploadPipeline now rand freshId true dbErr mimetype fileBytes origName
        title alt order st = (st, .saveFailed dbErr) ∧
    base64Pipeline now rand freshId true dbErr imageData title alt order st =
      ({ st with files :=
          (st.files ++ [⟨base64Filename now rand, stripDataUri imageData⟩]) },
       .saveFailed dbErr) ∧
    (UploadResult.saveFailed dbErr).status = 400 := by
  refine ⟨?_, ?_, rfl⟩
  · simp [uploadPipeline, fileFilter, hmime,
      unlinkFile_append_fresh _ fileBytes _ hfresh]
  · simp [base64Pipeline, hdata]

/-- C5 witness: both pipelines on an empty gallery with a failing record
save. -/
theorem upload_cleanup_asymmetry_witness :
    uploadPipeline 1 2 3 true ("boom") ("image/png") ("bytes") ("a.png")
        none none none ⟨[], []⟩ = (⟨[], []⟩, .saveFailed ("boom")) :=
  (upload_cleanup_asymmetry 1 2 3 ("boom") ("image/png") ("bytes") ("a.png")
    ("abc") none none none ⟨[], []⟩ (by decide) (by simp) (by decide)).1

/-- C10: the base64 upload path validates nothing about the image: for
every non-empty `imageData`, whatever its bytes, the (stripped) payload
is written to a fresh `.png`-named file in the uploads directory and a
gallery record pointing at `/uploads/<that file>` is created; the
stripping removes a `data:image/<type>;base64,` header when present and
leaves the payload untouched otherwise.  The mime whitelist of
`fileFilter` is consulted only by the multipart pipeline
(`uploadPipeline`), nowhere in `base64Pipeline`. -/
theorem base64_upload_no_validation (now rand freshId : Nat)
    (dbErr imageData : String) (title alt : Option String) (order : Option Nat)
    (st : GalleryState) (h : imageData ≠ "") :
    base64Pipeline now rand freshId false dbErr imageData title alt order st =
      (⟨st.files ++ [⟨base64Filename now rand, stripDataUri imageData⟩],
        st.images ++ [⟨freshId, title.getD ("Untitled"),
          "/uploads/" ++ base64Filename now rand, alt.getD (""),
          order.getD 0, now⟩]⟩,
       .created ⟨freshId, title.getD ("Untitled"),
          "/uploads/" ++ base64Filename now rand, alt.getD (""),
          order.getD 0, now⟩) ∧
    (∃ stem : String, base64Filename now rand = stem ++ ".png") ∧
    (∀ w s : String, w.toList ≠ [] → (∀ c ∈ w.toList, isWordChar c = true) →
      stripDataUri ("data:image/" ++ w ++ ";base64," ++ s) = s) ∧
    (∀ s : String, dropFront ("data:image/").toList s.toList = none →
      stripDataUri s = s) := by
  refine ⟨?_, ⟨"base64-" ++ toString now ++ "-" ++ toString rand, rfl⟩, ?_, ?_⟩
  · simp [base64Pipeline, h]
  · exact fun w s hw hall => stripDataUri_of_data_uri w s hw hall
  · exact fun s hs => stripDataUri_no_header s hs

/-- C10 witness: a base64 upload of a payload that is not an image at
all, with a data-URI header, against an empty gallery. -/
theorem base64_upload_no_validation_witness :
    base64Pipeline 7 9 4 false ("") ("data:image/gif;base64,SGVsbG8=")
        none none none ⟨[], []⟩ =
      (⟨[⟨base64Filename 7 9, stripDataUri ("data:image/gif;base64,SGVsbG8=")⟩],
        [⟨4, "Untitled", "/uploads/" ++ base64Filename 7 9, "", 0, 7⟩]⟩,
       .created ⟨4, "Untitled", "/uploads/" ++ base64Filename 7 9, "", 0, 7⟩) :=
  (base64_upload_no_validation 7 9 4 ("") ("data:image/gif;base64,SGVsbG8=")
    none none none ⟨[], []⟩ (by decide)).1

end Server
